import Mathlib

/-!
Shallow embedding of the Fitz backend (`fitz_backend/main.py`).

The backend is a thin HTTP layer over four external collaborators:
a text-generation service (Gemini), a music-catalog search service
(Spotify), an identity service (Firebase Auth) and a document store
(Firestore), plus a nutrition-analysis service (Edamam).  We model the
process-wide service handles as an `Env` of oracles (a handle that the
source leaves as `None` when credentials are missing is an `Option`;
a call that can raise is a function into `Except` or an explicit
failure oracle) and the document store as explicit state `St` threaded
through each endpooint.  Python exceptions are values of the error
side of `Except`; FastAPI `HTTPException` becomes `HTTPErr` carrying
the status code and detail string.
-/

/-- A raised `HTTPException`: status code and detail string. -/
structure HTTPErr where
  status : Nat
  detail : String
deriving DecidableEq, Repr

/-- Substring test on `List Char`: does the list start with `pat`? -/
def leadMatch : List Char → List Char → Bool
  | [], _ => true
  | _ :: _, [] => false
  | a :: as, b :: bs => a == b && leadMatch as bs

/-- Substring test: does `pat` occur anywhere in the list? -/
def subMatch (pat : List Char) : List Char → Bool
  | [] => leadMatch pat []
  | c :: rest => leadMatch pat (c :: rest) || subMatch pat rest

/-- Python `pat in s` on strings. -/
def strContains (s pat : String) : Bool :=
  subMatch pat.data s.data

/-- Firestore `SERVER_TIMESTAMP` sentinel. -/
inductive Timestamp
  | server
deriving DecidableEq, Repr

/-- `RegisterRequest` pydantic model. -/
structure RegisterRequest where
  email : String
  password : String
  name : String
deriving DecidableEq, Repr

/-- `LoginRequest` pydantic model. -/
structure LoginRequest where
  email : String
  password : String
deriving DecidableEq, Repr

/-- `GeneratePlanRequest` pydantic model (weights as rationals,
`workout_intensity` already defaulted to "moderate" by pydantic). -/
structure GeneratePlanRequest where
  user_uid : String
  current_weight : Rat
  target_weight : Rat
  duration_weeks : Nat
  music_genre : String
  workout_intensity : String
deriving DecidableEq, Repr

/-- `NutritionIngredient` pydantic model. -/
structure NutritionIngredient where
  ingredient : String
deriving DecidableEq, Repr

/-- One item of the `playlists.items` array of a Spotify search
response, as the JSON the loop body indexes into: `none` for a field
models an absent key (so direct indexing raises `KeyError`);
`description` is read with `.get` and so never raises; `images` is a
list whose elements may lack the `url` key. -/
structure SpotItem where
  name : Option String
  description : Option String
  external_urls_spotify : Option String
  images : Option (List (Option String))
  owner_display_name : Option String
  tracks_total : Option Nat
deriving DecidableEq, Repr

/-- The `playlists` object of a Spotify search response; `items` may
be absent (the code reads it with `.get('items', [])`). -/
structure PlaylistsPage where
  items : Option (List SpotItem)
deriving DecidableEq, Repr

/-- A Spotify search response; `playlists` may be absent (the code
reads it with `.get('playlists', \x7b\x7d)`). -/
structure SearchResults where
  playlists : Option PlaylistsPage
deriving DecidableEq, Repr

/-- `results.get('playlists', \x7b\x7d).get('items', [])`. -/
def SearchResults.getItems (r : SearchResults) : List SpotItem :=
  match r.playlists with
  | none => []
  | some p => p.items.getD []

/-- An exception raised by `spotify.search`: either a
`spotipy.exceptions.SpotifyException` or any other exception. -/
inductive SpotifyErr
  | api (msg : String)
  | other (msg : String)
deriving DecidableEq, Repr

/-- One element of `playlist_suggestions`: either the dict built in
the loop body or one of the error-marker dicts. -/
inductive Suggestion
  | item (name : String) (description : String) (spotify_url : String)
      (image_url : Option String) (owner : String) (tracks_count : Nat)
  | errorMarker (msg : String)
deriving DecidableEq, Repr

/-- Outcome of the Edamam POST + `raise_for_status` + `.json()`
sequence: a `requests.exceptions.RequestException` (including the
HTTP-error raised by `raise_for_status`), any other exception
(e.g. JSON decoding), or the decoded JSON body (kept opaque). -/
inductive EdamamOutcome
  | reqError (msg : String)
  | otherError (msg : String)
  | success (json : String)
deriving DecidableEq, Repr

/-- Result of `auth.get_user_by_email`. -/
inductive LookupResult
  | found (uid : String) (email : String)
  | userNotFound
  | otherError (msg : String)
deriving DecidableEq, Repr

/-- Profile document written by `/register`. -/
structure ProfileDoc where
  name : String
  email : String
  created_at : Timestamp
deriving DecidableEq, Repr

/-- Plan document written by `/generate_plan`. -/
structure PlanRecord where
  current_weight : Rat
  target_weight : Rat
  duration_weeks : Nat
  music_genre : String
  workout_intensity : String
  workout_plan : String
  diet_general_info : String
  music_playlist_suggestions : List Suggestion
  generated_at : Timestamp
deriving DecidableEq, Repr

/-- The document store (and the identity store's records): auth users
as (uid, email) pairs, `users/uid` profile docs, and the per-user
`users/uid/plans` sub-collection flattened to (uid, record) pairs in
insertion order. -/
structure St where
  authUsers : List (String × String)
  profiles : List (String × ProfileDoc)
  plans : List (String × PlanRecord)
deriving DecidableEq, Repr

/-- Process environment: the module-level service handles of
`main.py`, with each fallible external call given by an oracle.
`addPlanFails` / `profileSetFails` say whether the corresponding
Firestore write raises, and with what message. -/
structure Env where
  gemini_model : Option (String → Except String String)
  spotify : Option (String → Nat → Except SpotifyErr SearchResults)
  addPlanFails : Option String
  createUser : String → String → Except String String
  profileSetFails : Option String
  getUserByEmail : String → LookupResult
  edamam_app_id : Option String
  edamam_app_key : Option String
  edamamPost : List String → String → String → EdamamOutcome

/-- Python truthiness of an optional env string: `None` and `""` are
falsy. -/
def truthy : Option String → Bool
  | none => false
  | some s => !(s == "")

/-! ## `/register` -/

/-- The profile dict written by `/register`. -/
def mkProfile (req : RegisterRequest) : ProfileDoc :=
  { name := req.name, email := req.email, created_at := .server }

/-- `register_user`: create the identity record, then write the
profile document; one `try` around both, with the `email-already-exists`
string test deciding 409 vs 400 for any exception raised inside. -/
def register_user (env : Env) (st : St) (req : RegisterRequest) :
    Except HTTPErr (String × String) × St :=
  match env.createUser req.email req.password with
  | .error e =>
      (.error (if strContains e "email-already-exists" then
          ⟨409, "Email already registered. Please use a different email or log in."⟩
        else ⟨400, "Registration failed: " ++ e⟩), st)
  | .ok uid =>
      let st1 : St := { st with authUsers := st.authUsers ++ [(uid, req.email)] }
      match env.profileSetFails with
      | some e =>
          (.error (if strContains e "email-already-exists" then
              ⟨409, "Email already registered. Please use a different email or log in."⟩
            else ⟨400, "Registration failed: " ++ e⟩), st1)
      | none =>
          (.ok ("User registered successfully", uid),
           { st1 with profiles := st1.profiles ++ [(uid, mkProfile req)] })

/-! ## `/login` -/

/-- `login_user`: existence lookup by email; the supplied password is
never read. -/
def login_user (env : Env) (req : LoginRequest) :
    Except HTTPErr (String × String × String) :=
  match env.getUserByEmail req.email with
  | .found uid em =>
      .ok ("User found (client handles actual authentication)", uid, em)
  | .userNotFound =>
      .error ⟨404, "User not found with this email."⟩
  | .otherError e =>
      .error ⟨400, "Login verification failed: " ++ e⟩

/-! ## `/generate_plan` -/

/-- The workout prompt f-string. -/
def workoutPrompt (req : GeneratePlanRequest) : String :=
  "You are an expert fitness coach. Create a detailed 1-week workout plan for a user aiming to go from "
    ++ toString req.current_weight ++ " kg to " ++ toString req.target_weight
    ++ " kg in " ++ toString req.duration_weeks ++ " weeks.\n"
    ++ "The plan should include both cardio and strength training.\n"
    ++ "For each exercise, provide:\n- Exercise Name\n- A very brief description (1 sentence)\n"
    ++ "- Sets and Reps (e.g., 3 sets of 10-12 reps)\n- A short instruction on how to perform it safely.\n"
    ++ "Include rest days. Also, specifically suggest 3 variations or progressions for glute bridge exercises.\n"
    ++ "Format the plan clearly, day by day, using Markdown headings for readability."

/-- The diet prompt f-string. -/
def dietPrompt (req : GeneratePlanRequest) : String :=
  "You are an expert nutritionist. Based on a user\x27s goal to go from "
    ++ toString req.current_weight ++ " kg to " ++ toString req.target_weight
    ++ " kg in " ++ toString req.duration_weeks ++ " weeks,\n"
    ++ "provide a general overview of recommended daily caloric intake and a balanced macronutrient breakdown (proteins, carbs, fats).\n"
    ++ "Then, suggest a 3-day sample meal plan, including Breakfast, Lunch, Dinner, and 2 Snacks per day.\n"
    ++ "For each meal, suggest specific healthy options.\n"
    ++ "Include advice on water intake and general healthy eating habits.\n"
    ++ "Format the diet plan clearly, day by day, using Markdown headings for readability."

/-- The Spotify search query f-string. -/
def spotifyQuery (req : GeneratePlanRequest) : String :=
  req.music_genre ++ " " ++ req.workout_intensity ++ " workout music"

/-- The loop body of the Spotify result loop: build the suggestion
dict, raising `KeyError` (as an `Except.error`) exactly where direct
indexing on an absent key would; `description` uses `.get` with
default, and the image is the first image url, or `None` when the
image list is empty. -/
def extractSuggestion (p : SpotItem) : Except String Suggestion := do
  let name ← match p.name with
    | some v => Except.ok v
    | none => Except.error "KeyError: name"
  let description := p.description.getD "No description available"
  let spotify_url ← match p.external_urls_spotify with
    | some v => Except.ok v
    | none => Except.error "KeyError: external_urls"
  let image_url ← match p.images with
    | none => Except.error "KeyError: images"
    | some [] => Except.ok none
    | some (i :: _) =>
        match i with
        | some u => Except.ok (some u)
        | none => Except.error "KeyError: url"
  let owner ← match p.owner_display_name with
    | some v => Except.ok v
    | none => Except.error "KeyError: owner"
  let tracks_count ← match p.tracks_total with
    | some v => Except.ok v
    | none => Except.error "KeyError: tracks"
  .ok (.item name description spotify_url image_url owner tracks_count)

/-- The `for playlist in ...` loop with its surrounding `except`
handler: each successfully processed item is appended before the next
is touched, so an exception raised while processing an item leaves the
already-appended items in place and appends one error marker. -/
def processItems : List SpotItem → List Suggestion
  | [] => []
  | p :: rest =>
      match extractSuggestion p with
      | .ok s => s :: processItems rest
      | .error e => [.errorMarker ("An unexpected Spotify error occurred: " ++ e)]

/-- The `playlist_suggestions` list computed by the Spotify block of
`generate_plan`. -/
def spotifyBlock (env : Env) (req : GeneratePlanRequest) : List Suggestion :=
  match env.spotify with
  | none =>
      [.errorMarker "Spotify API not initialized. Check server logs for credential errors."]
  | some search =>
      match search (spotifyQuery req) 5 with
      | .error (.api se) =>
          [.errorMarker ("Spotify API error: " ++ se ++ ". Check credentials or network.")]
      | .error (.other se) =>
          [.errorMarker ("An unexpected Spotify error occurred: " ++ se)]
      | .ok results => processItems results.getItems

/-- The plan dict written to `users/uid/plans`. -/
def mkPlanRecord (req : GeneratePlanRequest) (workout_plan diet_general_info : String)
    (suggestions : List Suggestion) : PlanRecord :=
  { current_weight := req.current_weight
    target_weight := req.target_weight
    duration_weeks := req.duration_weeks
    music_genre := req.music_genre
    workout_intensity := req.workout_intensity
    workout_plan := workout_plan
    diet_general_info := diet_general_info
    music_playlist_suggestions := suggestions
    generated_at := .server }

/-- The `/generate_plan` response body. -/
structure PlanResponse where
  message : String
  workout_plan : String
  diet_plan_summary : String
  music_playlist_suggestions : List Suggestion
deriving DecidableEq, Repr

/-- `generate_plan`: 503 when the Gemini handle is `None`; otherwise
two generation calls, the degradable Spotify block, one Firestore
append, with every exception inside the `try` mapped to a 500. -/
def generate_plan (env : Env) (st : St) (req : GeneratePlanRequest) :
    Except HTTPErr PlanResponse × St :=
  match env.gemini_model with
  | none =>
      (.error ⟨503, "AI model (Gemini) is not initialized. Please check GEMINI_API_KEY."⟩, st)
  | some gen =>
      match gen (workoutPrompt req) with
      | .error e =>
          (.error ⟨500, "An internal error occurred while generating the plan: " ++ e⟩, st)
      | .ok workout_plan =>
          match gen (dietPrompt req) with
          | .error e =>
              (.error ⟨500, "An internal error occurred while generating the plan: " ++ e⟩, st)
          | .ok diet_general_info =>
              let playlist_suggestions := spotifyBlock env req
              match env.addPlanFails with
              | some e =>
                  (.error ⟨500, "An internal error occurred while generating the plan: " ++ e⟩, st)
              | none =>
                  (.ok { message := "Plan generated and saved successfully"
                         workout_plan := workout_plan
                         diet_plan_summary := diet_general_info
                         music_playlist_suggestions := playlist_suggestions },
                   { st with plans := st.plans ++
                       [(req.user_uid, mkPlanRecord req workout_plan diet_general_info playlist_suggestions)] })

/-! ## `/analyze_nutrition` -/

/-- `analyze_nutrition`: 503 when either Edamam key is missing or
empty; otherwise forward the ingredient strings, mapping a
`RequestException` to 502 and any other exception to 500, and return
the upstream JSON unmodified.  The store is never touched. -/
def analyze_nutrition (env : Env) (st : St) (ingredients : List NutritionIngredient) :
    Except HTTPErr String × St :=
  if !(truthy env.edamam_app_id) || !(truthy env.edamam_app_key) then
    (.error ⟨503, "Edamam API keys are not configured. Nutrition analysis is unavailable."⟩, st)
  else
    let ingredient_strings := ingredients.map (·.ingredient)
    match env.edamamPost ingredient_strings (env.edamam_app_id.getD "") (env.edamam_app_key.getD "") with
    | .reqError e =>
        (.error ⟨502, "Edamam API service is currently unavailable or returned an error: " ++ e⟩, st)
    | .otherError e =>
        (.error ⟨500, "An unexpected error occurred during nutrition analysis: " ++ e⟩, st)
    | .success j => (.ok j, st)

/-! ## Concrete fixtures for witnesses and counterexamples -/

/-- A base environment: nothing configured, all writes succeed. -/
def env0 : Env where
  gemini_model := none
  spotify := none
  addPlanFails := none
  createUser := fun _ _ => .ok "uid-1"
  profileSetFails := none
  getUserByEmail := fun _ => .userNotFound
  edamam_app_id := none
  edamam_app_key := none
  edamamPost := fun _ _ _ => .success "json-body"

/-- Empty store. -/
def st0 : St := ⟨[], [], []⟩

/-- The spec's concrete plan request. -/
def req0 : GeneratePlanRequest :=
  { user_uid := "u1", current_weight := 70.5, target_weight := 65.0,
    duration_weeks := 8, music_genre := "Electronic Dance Music",
    workout_intensity := "moderate" }

/-- A concrete register request. -/
def regReq0 : RegisterRequest :=
  { email := "user@example.com", password := "securepassword123", name := "Jane Doe" }

/-- An environment whose identity creation fails with the upstream
duplicate-email marker in the message. -/
def envDup : Env :=
  { env0 with createUser := fun _ _ =>
      Except.error "Error: the user with the provided email-already-exists (EMAIL_EXISTS)" }

/-- An environment whose profile write raises a non-duplicate error. -/
def envProfFail : Env :=
  { env0 with profileSetFails := some "Deadline Exceeded" }

/-- An environment knowing one account. -/
def envFound : Env :=
  { env0 with getUserByEmail := fun em =>
      if em == "user@example.com" then .found "uid-9" "user@example.com" else .userNotFound }

/-- An environment whose generation call raises. -/
def envGenFail : Env :=
  { env0 with gemini_model := some fun _ => Except.error "boom" }

/-- An environment with only the generation handle configured. -/
def envGemOnly : Env :=
  { env0 with gemini_model := some fun _ => Except.ok "TEXT" }

/-- An environment with Edamam credentials configured. -/
def envEdam : Env :=
  { env0 with edamam_app_id := some "app-id", edamam_app_key := some "app-key" }

/-- Does the loop body raise on this item? -/
def extractFails (p : SpotItem) : Bool :=
  match extractSuggestion p with
  | .ok _ => false
  | .error _ => true

/-- A fully well-formed search item. -/
def goodItem : SpotItem :=
  { name := some "Beast Mode", description := some "High energy",
    external_urls_spotify := some "https://open.spotify.com/playlist/1",
    images := some [some "https://img.spotify.example/1"],
    owner_display_name := some "Spotify", tracks_total := some 50 }

/-- The suggestion the loop builds from `goodItem`. -/
def sugGood : Suggestion :=
  Suggestion.item "Beast Mode" "High energy" "https://open.spotify.com/playlist/1"
    (some "https://img.spotify.example/1") "Spotify" 50

/-- A search item whose `name` key is absent, so the loop body raises
on it. -/
def noNameItem : SpotItem := { goodItem with name := none }

/-- Search response carrying the given items. -/
def mkResults (l : List SpotItem) : SearchResults := ⟨some ⟨some l⟩⟩

/-- A search call that raises a SpotifyException. -/
def spotFailSearch : String → Nat → Except SpotifyErr SearchResults :=
  fun _ _ => Except.error (SpotifyErr.api "rate limited")

/-- Generation configured, search raising. -/
def envSpotFail : Env :=
  { env0 with gemini_model := some fun _ => Except.ok "TEXT", spotify := some spotFailSearch }

/-- Generation configured, search returning a good item followed by a
malformed one. -/
def envC2 : Env :=
  { env0 with gemini_model := some fun _ => Except.ok "TEXT",
              spotify := some fun _ _ => Except.ok (mkResults [goodItem, noNameItem]) }

/-- Response produced on `envC2`: one processed item, then the error
marker. -/
def respC2 : PlanResponse :=
  { message := "Plan generated and saved successfully", workout_plan := "TEXT",
    diet_plan_summary := "TEXT",
    music_playlist_suggestions :=
      [sugGood, Suggestion.errorMarker "An unexpected Spotify error occurred: KeyError: name"] }

/-- Generation configured, search answering with six items. -/
def envC4 : Env :=
  { env0 with gemini_model := some fun _ => Except.ok "TEXT",
              spotify := some fun _ _ =>
                Except.ok (mkResults [goodItem, goodItem, goodItem, goodItem, goodItem, goodItem]) }

/-- Response produced on `envC4`: six suggestions. -/
def respC4 : PlanResponse :=
  { message := "Plan generated and saved successfully", workout_plan := "TEXT",
    diet_plan_summary := "TEXT",
    music_playlist_suggestions := [sugGood, sugGood, sugGood, sugGood, sugGood, sugGood] }

/-- Generation configured, search answering with one good item. -/
def envSpotOk : Env :=
  { env0 with gemini_model := some fun _ => Except.ok "TEXT",
              spotify := some fun _ _ => Except.ok (mkResults [goodItem]) }

/-- Generation configured but answering the empty string. -/
def envEmptyGen : Env :=
  { env0 with gemini_model := some fun _ => Except.ok "" }

/-- Response produced on `envEmptyGen`: a success carrying empty
texts. -/
def respEmpty : PlanResponse :=
  { message := "Plan generated and saved successfully", workout_plan := "",
    diet_plan_summary := "",
    music_playlist_suggestions :=
      [Suggestion.errorMarker "Spotify API not initialized. Check server logs for credential errors."] }

/-- Response produced on `envGemOnly`. -/
def respGem : PlanResponse :=
  { message := "Plan generated and saved successfully", workout_plan := "TEXT",
    diet_plan_summary := "TEXT",
    music_playlist_suggestions :=
      [Suggestion.errorMarker "Spotify API not initialized. Check server logs for credential errors."] }

/-! ## Claim theorems -/

/-- C3: with the text-generation handle unconfigured, `generate_plan`
fails with 503 and the untouched store, whatever the catalog and
persistence oracles are (so no catalog call and no persistence can
have happened). -/
theorem generate_plan_unconfigured_503 (env : Env) (st : St) (req : GeneratePlanRequest)
    (h : env.gemini_model = none) :
    generate_plan env st req =
      (.error ⟨503, "AI model (Gemini) is not initialized. Please check GEMINI_API_KEY."⟩, st) ∧
    ∀ sp ap, generate_plan { env with spotify := sp, addPlanFails := ap } st req =
      (.error ⟨503, "AI model (Gemini) is not initialized. Please check GEMINI_API_KEY."⟩, st) := by
  constructor
  · unfold generate_plan
    rw [h]
  · intro sp ap
    unfold generate_plan
    show (match env.gemini_model with | none => _ | some gen => _) = _
    rw [h]

/-- Witness for C3 at a concrete unconfigured environment. -/
theorem generate_plan_unconfigured_503_witness :
    generate_plan env0 st0 req0 =
      (.error ⟨503, "AI model (Gemini) is not initialized. Please check GEMINI_API_KEY."⟩, st0) :=
  (generate_plan_unconfigured_503 env0 st0 req0 rfl).1

/-- C5: when identity creation raises, the endpoint yields 409 exactly
when the upstream message contains the `email-already-exists` marker,
and the generic 400 otherwise. -/
theorem register_user_conflict_vs_badrequest (env : Env) (st : St) (req : RegisterRequest)
    (e : String) (h : env.createUser req.email req.password = .error e) :
    (strContains e "email-already-exists" = true →
      (register_user env st req).1 =
        .error ⟨409, "Email already registered. Please use a different email or log in."⟩) ∧
    (strContains e "email-already-exists" = false →
      (register_user env st req).1 = .error ⟨400, "Registration failed: " ++ e⟩) := by
  unfold register_user
  rw [h]
  constructor
  · intro hm
    simp only [hm]
    rfl
  · intro hm
    simp only [hm]
    rfl

/-- Witness for C5: the duplicate-email failure yields 409. -/
theorem register_user_conflict_vs_badrequest_witness :
    (register_user envDup st0 regReq0).1 =
      .error ⟨409, "Email already registered. Please use a different email or log in."⟩ :=
  (register_user_conflict_vs_badrequest envDup st0 regReq0
    "Error: the user with the provided email-already-exists (EMAIL_EXISTS)" rfl).1 (by decide)

/-- C10: when identity creation succeeds but the profile write raises
with a message lacking the duplicate marker, the endpoint yields the
generic 400, the identity record stays in the identity store, and no
profile document exists. -/
theorem register_user_no_rollback (env : Env) (st : St) (req : RegisterRequest)
    (uid e : String)
    (hc : env.createUser req.email req.password = .ok uid)
    (hp : env.profileSetFails = some e)
    (hm : strContains e "email-already-exists" = false) :
    (register_user env st req).1 = .error ⟨400, "Registration failed: " ++ e⟩ ∧
    (register_user env st req).2.authUsers = st.authUsers ++ [(uid, req.email)] ∧
    (register_user env st req).2.profiles = st.profiles := by
  unfold register_user
  rw [hc, hp]
  simp [hm]

/-- Witness for C10 at a concrete store and request. -/
theorem register_user_no_rollback_witness :
    (register_user envProfFail st0 regReq0).1 =
      .error ⟨400, "Registration failed: Deadline Exceeded"⟩ ∧
    (register_user envProfFail st0 regReq0).2.authUsers = [("uid-1", "user@example.com")] ∧
    (register_user envProfFail st0 regReq0).2.profiles = [] :=
  register_user_no_rollback envProfFail st0 regReq0 "uid-1" "Deadline Exceeded" rfl rfl (by decide)

/-- C9: login is an email-existence lookup: a matching record yields
its uid and stored email, no match yields 404, any other lookup error
yields 400, and the supplied password never influences the result. -/
theorem login_user_lookup_behaviour (env : Env) (req : LoginRequest) :
    (∀ uid em, env.getUserByEmail req.email = .found uid em →
      login_user env req = .ok ("User found (client handles actual authentication)", uid, em)) ∧
    (env.getUserByEmail req.email = .userNotFound →
      login_user env req = .error ⟨404, "User not found with this email."⟩) ∧
    (∀ m, env.getUserByEmail req.email = .otherError m →
      login_user env req = .error ⟨400, "Login verification failed: " ++ m⟩) ∧
    (∀ p, login_user env { email := req.email, password := p } = login_user env req) := by
  refine ⟨?_, ?_, ?_, ?_⟩
  · intro uid em hf
    unfold login_user
    rw [hf]
  · intro hn
    unfold login_user
    rw [hn]
  · intro m he
    unfold login_user
    rw [he]
  · intro p
    rfl

/-- Witness for C9: lookup of the known email succeeds with its uid,
for two different passwords. -/
theorem login_user_lookup_behaviour_witness :
    login_user envFound ⟨"user@example.com", "pw-one"⟩ =
      .ok ("User found (client handles actual authentication)", "uid-9", "user@example.com") ∧
    login_user envFound ⟨"user@example.com", "pw-two"⟩ =
      login_user envFound ⟨"user@example.com", "pw-one"⟩ :=
  ⟨(login_user_lookup_behaviour envFound ⟨"user@example.com", "pw-one"⟩).1 "uid-9"
      "user@example.com" (by decide),
   (login_user_lookup_behaviour envFound ⟨"user@example.com", "pw-one"⟩).2.2.2 "pw-two"⟩

/-- C1: whenever `generate_plan` fails, the store is unchanged (the
plan record is only appended on the all-success path), and if the
generation handle was configured the failure signal is a 500. -/
theorem generate_plan_error_no_partial_persist (env : Env) (st : St)
    (req : GeneratePlanRequest) (e : HTTPErr)
    (h : (generate_plan env st req).1 = Except.error e) :
    (generate_plan env st req).2 = st ∧ (env.gemini_model ≠ none → e.status = 500) := by
  unfold generate_plan at h ⊢
  rcases hg : env.gemini_model with _ | gen
  · exact ⟨rfl, fun hc => absurd rfl hc⟩
  · rw [hg] at h
    dsimp only at h ⊢
    rcases hw : gen (workoutPrompt req) with e1 | w
    · rw [hw] at h
      dsimp only at h
      refine ⟨rfl, fun _ => ?_⟩
      injection h with h2
      rw [← h2]
    · rw [hw] at h
      dsimp only at h
      rcases hd : gen (dietPrompt req) with e2 | d
      · rw [hd] at h
        dsimp only at h
        refine ⟨rfl, fun _ => ?_⟩
        injection h with h2
        rw [← h2]
      · rw [hd] at h
        dsimp only at h
        rcases ha : env.addPlanFails with _ | e3
        · rw [ha] at h
          dsimp only at h
          exact absurd h (by simp)
        · rw [ha] at h
          dsimp only at h
          refine ⟨rfl, fun _ => ?_⟩
          injection h with h2
          rw [← h2]

/-- Witness for C1: a failing generation call leaves the store as it
was. -/
theorem generate_plan_error_no_partial_persist_witness :
    (generate_plan envGenFail st0 req0).2 = st0 :=
  (generate_plan_error_no_partial_persist envGenFail st0 req0
    ⟨500, "An internal error occurred while generating the plan: boom"⟩ rfl).1

/-- C8: generation configured and succeeding, catalog handle
unconfigured: the endpoint succeeds, the playlist field is exactly the
single not-initialized marker, both generated texts are returned, and
the record (with that marker list) is appended. -/
theorem generate_plan_catalog_unconfigured_marker (env : Env) (st : St)
    (req : GeneratePlanRequest) (gen : String → Except String String) (w d : String)
    (hg : env.gemini_model = some gen)
    (hw : gen (workoutPrompt req) = .ok w)
    (hd : gen (dietPrompt req) = .ok d)
    (hs : env.spotify = none)
    (ha : env.addPlanFails = none) :
    generate_plan env st req =
      (Except.ok { message := "Plan generated and saved successfully", workout_plan := w,
                   diet_plan_summary := d, music_playlist_suggestions :=
                     [.errorMarker "Spotify API not initialized. Check server logs for credential errors."] },
       { st with plans := st.plans ++ [(req.user_uid, mkPlanRecord req w d
                   [.errorMarker "Spotify API not initialized. Check server logs for credential errors."])] }) := by
  unfold generate_plan spotifyBlock
  rw [hg]
  dsimp only
  rw [hw]
  dsimp only
  rw [hd]
  dsimp only
  rw [hs, ha]

/-- Witness for C8 at a concrete environment. -/
theorem generate_plan_catalog_unconfigured_marker_witness :
    generate_plan envGemOnly st0 req0 =
      (Except.ok { message := "Plan generated and saved successfully", workout_plan := "TEXT",
                   diet_plan_summary := "TEXT", music_playlist_suggestions :=
                     [.errorMarker "Spotify API not initialized. Check server logs for credential errors."] },
       { st0 with plans := st0.plans ++ [(req0.user_uid, mkPlanRecord req0 "TEXT" "TEXT"
                   [.errorMarker "Spotify API not initialized. Check server logs for credential errors."])] }) :=
  generate_plan_catalog_unconfigured_marker envGemOnly st0 req0 _ "TEXT" "TEXT" rfl rfl rfl rfl rfl

/-- C6: with a missing or empty Edamam key the nutrition endpoint
yields 503 with the store untouched, whatever the upstream oracle is;
with both keys set and a successful upstream call on exactly the
request's ingredient strings in order, it returns the upstream JSON
unmodified and the store untouched. -/
theorem analyze_nutrition_proxy (env : Env) (st : St) (ings : List NutritionIngredient) :
    ((truthy env.edamam_app_id && truthy env.edamam_app_key) = false →
      ∀ f, analyze_nutrition { env with edamamPost := f } st ings =
        (.error ⟨503, "Edamam API keys are not configured. Nutrition analysis is unavailable."⟩, st)) ∧
    ((truthy env.edamam_app_id && truthy env.edamam_app_key) = true → ∀ j,
      env.edamamPost (ings.map (·.ingredient)) (env.edamam_app_id.getD "")
          (env.edamam_app_key.getD "") = .success j →
      analyze_nutrition env st ings = (.ok j, st)) := by
  constructor
  · intro hcond f
    unfold analyze_nutrition
    cases hA : truthy env.edamam_app_id with
    | false => simp [hA]
    | true =>
      cases hB : truthy env.edamam_app_key with
      | false => simp [hA, hB]
      | true => rw [hA, hB] at hcond; simp at hcond
  · intro hcond j hpost
    rw [Bool.and_eq_true] at hcond
    obtain ⟨hA, hB⟩ := hcond
    unfold analyze_nutrition
    simp [hA, hB, hpost]

/-- Witness for C6: 503 when unconfigured, upstream passthrough when
configured. -/
theorem analyze_nutrition_proxy_witness :
    analyze_nutrition env0 st0 [] =
      (.error ⟨503, "Edamam API keys are not configured. Nutrition analysis is unavailable."⟩, st0) ∧
    analyze_nutrition envEdam st0 [⟨"1 cup cooked rice"⟩] = (.ok "json-body", st0) :=
  ⟨(analyze_nutrition_proxy env0 st0 []).1 rfl env0.edamamPost,
   (analyze_nutrition_proxy envEdam st0 [⟨"1 cup cooked rice"⟩]).2 rfl "json-body" rfl⟩

/-- Shared helper: on the all-success path the endpoint returns the
two generated texts together with the Spotify block, and appends
exactly one record built from the same data. -/
theorem generate_plan_run_ok (env : Env) (st : St) (req : GeneratePlanRequest)
    (gen : String → Except String String) (w d : String)
    (hg : env.gemini_model = some gen)
    (hw : gen (workoutPrompt req) = .ok w)
    (hd : gen (dietPrompt req) = .ok d)
    (ha : env.addPlanFails = none) :
    generate_plan env st req =
      (Except.ok { message := "Plan generated and saved successfully", workout_plan := w,
                   diet_plan_summary := d,
                   music_playlist_suggestions := spotifyBlock env req },
       { st with plans := st.plans ++
           [(req.user_uid, mkPlanRecord req w d (spotifyBlock env req))] }) := by
  unfold generate_plan
  rw [hg]
  dsimp only
  rw [hw]
  dsimp only
  rw [hd]
  dsimp only
  rw [ha]

/-- Shared helper: if some item of the list makes the loop body raise,
the loop output is a (possibly empty) prefix of processed items
followed by exactly one error marker. -/
theorem processItems_marker_last (l : List SpotItem)
    (h : ∃ p ∈ l, extractFails p = true) :
    ∃ pre msg, processItems l = pre ++ [Suggestion.errorMarker msg] := by
  induction l with
  | nil => simp at h
  | cons p rest ih =>
    rcases hx : extractSuggestion p with e | s
    · exact ⟨[], "An unexpected Spotify error occurred: " ++ e, by simp [processItems, hx]⟩
    · obtain ⟨q, hq, hqf⟩ := h
      rcases List.mem_cons.mp hq with rfl | hq2
      · unfold extractFails at hqf
        rw [hx] at hqf
        exact absurd hqf (by simp)
      · obtain ⟨pre, msg, hpre⟩ := ih ⟨q, hq2, hqf⟩
        exact ⟨s :: pre, msg, by simp [processItems, hx, hpre]⟩

/-- Shared helper: the loop never outputs more elements than the
search response has items. -/
theorem processItems_length_le (l : List SpotItem) :
    (processItems l).length ≤ l.length := by
  induction l with
  | nil => simp [processItems]
  | cons p rest ih =>
    rcases hx : extractSuggestion p with e | s <;> simp [processItems, hx]
    all_goals omega

/-- C2 (amended): when the catalog step fails — the search call raises,
or some returned item makes the loop body raise — the endpoint still
succeeds with both generated texts, and the playlist field is the
processed prefix followed by exactly one error marker; when the search
call itself raises, that prefix is empty, so the field is a
single-element error list. -/
theorem generate_plan_catalog_failure_still_succeeds (env : Env) (st : St)
    (req : GeneratePlanRequest) (gen : String → Except String String) (w d : String)
    (s : String → Nat → Except SpotifyErr SearchResults)
    (hg : env.gemini_model = some gen)
    (hw : gen (workoutPrompt req) = .ok w)
    (hd : gen (dietPrompt req) = .ok d)
    (hs : env.spotify = some s)
    (ha : env.addPlanFails = none)
    (hfail : (∃ se, s (spotifyQuery req) 5 = .error se) ∨
       (∃ results, s (spotifyQuery req) 5 = .ok results ∧
          ∃ p ∈ results.getItems, extractFails p = true)) :
    ∃ pre msg,
      (generate_plan env st req).1 = Except.ok
        { message := "Plan generated and saved successfully", workout_plan := w,
          diet_plan_summary := d,
          music_playlist_suggestions := pre ++ [Suggestion.errorMarker msg] } ∧
      ((∃ se, s (spotifyQuery req) 5 = .error se) → pre = []) := by
  rcases hfail with ⟨se, hse⟩ | ⟨results, hres, p, hp, hpf⟩
  · obtain ⟨msg, hblock⟩ : ∃ msg, spotifyBlock env req = [Suggestion.errorMarker msg] := by
      rcases se with m | m
      · refine ⟨"Spotify API error: " ++ m ++ ". Check credentials or network.", ?_⟩
        unfold spotifyBlock
        rw [hs]
        dsimp only
        rw [hse]
      · refine ⟨"An unexpected Spotify error occurred: " ++ m, ?_⟩
        unfold spotifyBlock
        rw [hs]
        dsimp only
        rw [hse]
    refine ⟨[], msg, ?_, fun _ => rfl⟩
    rw [generate_plan_run_ok env st req gen w d hg hw hd ha]
    dsimp only
    rw [hblock]
    rfl
  · obtain ⟨pre, msg, hpm⟩ := processItems_marker_last results.getItems ⟨p, hp, hpf⟩
    have hblock : spotifyBlock env req = pre ++ [Suggestion.errorMarker msg] := by
      unfold spotifyBlock
      rw [hs]
      dsimp only
      rw [hres]
      dsimp only
      exact hpm
    refine ⟨pre, msg, ?_, fun hcon => ?_⟩
    · rw [generate_plan_run_ok env st req gen w d hg hw hd ha]
      dsimp only
      rw [hblock]
    · obtain ⟨se, hse⟩ := hcon
      rw [hres] at hse
      exact absurd hse (by simp)

/-- Witness for C2 (amended), catalog search raising: still a 200 with
a single-element error list. -/
theorem generate_plan_catalog_failure_still_succeeds_witness :
    ∃ pre msg,
      (generate_plan envSpotFail st0 req0).1 = Except.ok
        { message := "Plan generated and saved successfully", workout_plan := "TEXT",
          diet_plan_summary := "TEXT",
          music_playlist_suggestions := pre ++ [Suggestion.errorMarker msg] } ∧
      ((∃ se, spotFailSearch (spotifyQuery req0) 5 = Except.error se) → pre = []) :=
  generate_plan_catalog_failure_still_succeeds envSpotFail st0 req0 _ "TEXT" "TEXT"
    spotFailSearch rfl rfl rfl rfl rfl (Or.inl ⟨SpotifyErr.api "rate limited", rfl⟩)

/-- Counterexample to C2 as stated: on a search response whose second
item is malformed, the endpoint succeeds but the playlist field has
two elements (the processed first item, then the error marker), not a
single-element error list. -/
theorem generate_plan_partial_marker_counterexample :
    (generate_plan envC2 st0 req0).1 = Except.ok respC2 ∧
    respC2.music_playlist_suggestions.length = 2 :=
  ⟨rfl, rfl⟩

/-- C4 (amended): on a successful catalog search the returned and
persisted playlist field is exactly the loop over the response's items
in response order; the search is requested with limit 5 but the code
itself never truncates, so the 5-element bound holds exactly when the
response itself has at most 5 items. -/
theorem generate_plan_suggestions_from_search (env : Env) (st : St)
    (req : GeneratePlanRequest) (gen : String → Except String String) (w d : String)
    (s : String → Nat → Except SpotifyErr SearchResults) (results : SearchResults)
    (hg : env.gemini_model = some gen)
    (hw : gen (workoutPrompt req) = .ok w)
    (hd : gen (dietPrompt req) = .ok d)
    (hs : env.spotify = some s)
    (hr : s (spotifyQuery req) 5 = .ok results)
    (ha : env.addPlanFails = none) :
    (generate_plan env st req).1 = Except.ok
      { message := "Plan generated and saved successfully", workout_plan := w,
        diet_plan_summary := d,
        music_playlist_suggestions := processItems results.getItems } ∧
    (generate_plan env st req).2.plans = st.plans ++
      [(req.user_uid, mkPlanRecord req w d (processItems results.getItems))] ∧
    (processItems results.getItems).length ≤ results.getItems.length ∧
    (results.getItems.length ≤ 5 → (processItems results.getItems).length ≤ 5) := by
  have hblock : spotifyBlock env req = processItems results.getItems := by
    unfold spotifyBlock
    rw [hs]
    dsimp only
    rw [hr]
  rw [generate_plan_run_ok env st req gen w d hg hw hd ha]
  dsimp only
  rw [hblock]
  exact ⟨rfl, rfl, processItems_length_le _, fun h5 => le_trans (processItems_length_le _) h5⟩

/-- Witness for C4 (amended) on a one-item search response. -/
theorem generate_plan_suggestions_from_search_witness :
    (generate_plan envSpotOk st0 req0).1 = Except.ok
      { message := "Plan generated and saved successfully", workout_plan := "TEXT",
        diet_plan_summary := "TEXT",
        music_playlist_suggestions := processItems (mkResults [goodItem]).getItems } ∧
    (generate_plan envSpotOk st0 req0).2.plans = st0.plans ++
      [(req0.user_uid, mkPlanRecord req0 "TEXT" "TEXT"
          (processItems (mkResults [goodItem]).getItems))] ∧
    (processItems (mkResults [goodItem]).getItems).length ≤ (mkResults [goodItem]).getItems.length ∧
    ((mkResults [goodItem]).getItems.length ≤ 5 →
      (processItems (mkResults [goodItem]).getItems).length ≤ 5) :=
  generate_plan_suggestions_from_search envSpotOk st0 req0 _ "TEXT" "TEXT" _
    (mkResults [goodItem]) rfl rfl rfl rfl rfl rfl

/-- Counterexample to C4 as stated: a successful search whose response
carries six items yields six playlist suggestions — the code performs
no truncation of its own, so the list exceeds five elements. -/
theorem generate_plan_six_suggestions_counterexample :
    (generate_plan envC4 st0 req0).1 = Except.ok respC4 ∧
    respC4.music_playlist_suggestions.length = 6 ∧
    5 < respC4.music_playlist_suggestions.length :=
  ⟨rfl, rfl, by decide⟩

/-- C7 (amended): whenever `generate_plan` succeeds, the returned
workout and diet strings are exactly the texts produced by the two
generation calls (the code never checks them for emptiness), and
exactly one new record built from the same data is appended under the
requesting user. -/
theorem generate_plan_success_persists_generated_text (env : Env) (st : St)
    (req : GeneratePlanRequest) (resp : PlanResponse)
    (h : (generate_plan env st req).1 = Except.ok resp) :
    ∃ gen, env.gemini_model = some gen ∧
      gen (workoutPrompt req) = .ok resp.workout_plan ∧
      gen (dietPrompt req) = .ok resp.diet_plan_summary ∧
      (generate_plan env st req).2.plans = st.plans ++
        [(req.user_uid, mkPlanRecord req resp.workout_plan resp.diet_plan_summary
            resp.music_playlist_suggestions)] := by
  obtain ⟨gen, w, d, hg, hw, hd, ha⟩ :
      ∃ gen w d, env.gemini_model = some gen ∧ gen (workoutPrompt req) = .ok w ∧
        gen (dietPrompt req) = .ok d ∧ env.addPlanFails = none := by
    unfold generate_plan at h
    rcases hg : env.gemini_model with _ | gen
    · rw [hg] at h
      dsimp only at h
      exact absurd h (by simp)
    · rw [hg] at h
      dsimp only at h
      rcases hw : gen (workoutPrompt req) with e1 | w
      · rw [hw] at h
        dsimp only at h
        exact absurd h (by simp)
      · rw [hw] at h
        dsimp only at h
        rcases hd : gen (dietPrompt req) with e2 | d
        · rw [hd] at h
          dsimp only at h
          exact absurd h (by simp)
        · rw [hd] at h
          dsimp only at h
          rcases ha : env.addPlanFails with _ | e3
          · exact ⟨gen, w, d, rfl, hw, hd, rfl⟩
          · rw [ha] at h
            dsimp only at h
            exact absurd h (by simp)
  have hrun := generate_plan_run_ok env st req gen w d hg hw hd ha
  rw [hrun] at h
  dsimp only at h
  injection h with h2
  subst h2
  refine ⟨gen, hg, hw, hd, ?_⟩
  rw [hrun]

/-- Witness for C7 (amended) at the spec's concrete request. -/
theorem generate_plan_success_persists_generated_text_witness :
    ∃ gen, envGemOnly.gemini_model = some gen ∧
      gen (workoutPrompt req0) = .ok respGem.workout_plan ∧
      gen (dietPrompt req0) = .ok respGem.diet_plan_summary ∧
      (generate_plan envGemOnly st0 req0).2.plans = st0.plans ++
        [(req0.user_uid, mkPlanRecord req0 respGem.workout_plan respGem.diet_plan_summary
            respGem.music_playlist_suggestions)] :=
  generate_plan_success_persists_generated_text envGemOnly st0 req0 respGem rfl

/-- Counterexample to C7 as stated: at exactly the spec's concrete
request the endpoint can succeed while returning empty workout and
diet strings — the code never enforces non-emptiness of the generated
text. -/
theorem generate_plan_empty_text_counterexample :
    (generate_plan envEmptyGen st0 req0).1 = Except.ok respEmpty ∧
    respEmpty.workout_plan = "" ∧ respEmpty.diet_plan_summary = "" :=
  ⟨rfl, rfl, rfl⟩
